import Mathlib

/-
Shallow embedding of the Virtual Glasses Try-On overlay core
(src/js/virtual-glasses.js), class VirtualGlassesTryOn.

Numbers are modelled over the reals.  A landmark array entry that is
absent or out of range in JavaScript evaluates to undefined; a LandmarkSet
is therefore a list of optional 2D points, and JS index access is
modelled by getLandmark (out of range gives none).  The per-face frame
handler detectFaces wraps drawGlassesOnFace in a try/catch, so the frame
result distinguishes a clean early return (.ok none), a thrown TypeError
(.error, caught by the loop), and a successful draw.
-/

namespace VirtualGlasses

/-- A 2D landmark point; the mesh supplies x, y (the z coordinate is
never read by the placement code). -/
structure Point where
  x : ℝ
  y : ℝ

/-- The smoothing state this.lastGlassesPosition:
center x, center y, width, height, angle (radians). -/
structure Placement where
  x : ℝ
  y : ℝ
  width : ℝ
  height : ℝ
  angle : ℝ

/-- Constructor line 17: lastGlassesPosition starts as the all-zero
sentinel, whose x = 0 marks that no prior frame exists. -/
def initialPlacement : Placement := ⟨0, 0, 0, 0, 0⟩

/-- The overlay image this.glassesImg: native pixel size and the
decoded flag (HTMLImageElement.complete). -/
structure Img where
  width : ℝ
  height : ℝ
  complete : Bool

/-- JavaScript Math.atan2 y x, the argument of the complex number
x + y i, valued in the interval from -pi exclusive to pi inclusive
(atan2 0 0 = 0, matching JS). -/
noncomputable def atan2 (y x : ℝ) : ℝ := Complex.arg ⟨x, y⟩

/-- JS array read landmarks[i]: none when the entry is undefined,
either because i is out of range or because the stored entry is absent. -/
def getLandmark (l : List (Option Point)) (i : ℕ) : Option Point :=
  (l.get? i).join

/-- Lines 265-272: an eye center is derived from the inner corner, outer
corner and top landmarks; x averages the two corners, y averages all
three (the top influences the vertical position only). -/
noncomputable def eyeCenter (inner outer top : Point) : Point :=
  ⟨(inner.x + outer.x) / 2, (inner.y + outer.y + top.y) / 3⟩

/-- Line 283-286: Euclidean distance between the two eye centers, the
sole scale signal. -/
noncomputable def eyeDistance (l r : Point) : ℝ :=
  Real.sqrt ((r.x - l.x) ^ 2 + (r.y - l.y) ^ 2)

/-- Lines 289-292: raw tilt angle of the vector from the left eye
center to the right eye center. -/
noncomputable def rawAngle (l r : Point) : ℝ :=
  atan2 (r.y - l.y) (r.x - l.x)

/-- Lines 274-307 of drawGlassesOnFace: the raw (pre-smoothing)
placement computed from the two eye centers and the overlay image.
Mirrors the source: center = eye midpoint shifted up 5; angle clamped
to [-0.1, 0.1]; width = image width times eyeDistance / 80, clamped to
[1.8, 2.5] times the eye distance; height recomputed from the clamped
width by the image's native aspect. -/
noncomputable def solvePlacement (img : Img) (leftEyeCenter rightEyeCenter : Point) :
    Placement :=
  let eyesCenterX := (leftEyeCenter.x + rightEyeCenter.x) / 2
  let eyesCenterY := (leftEyeCenter.y + rightEyeCenter.y) / 2
  let glassesX := eyesCenterX
  let glassesY := eyesCenterY - 5
  let dist := eyeDistance leftEyeCenter rightEyeCenter
  let faceAngle := rawAngle leftEyeCenter rightEyeCenter
  let faceAngle := max (-0.1) (min 0.1 faceAngle)
  let glassesScale := dist / 80
  let finalWidth := img.width * glassesScale
  let minWidth := dist * 1.8
  let maxWidth := dist * 2.5
  let finalWidth := max minWidth (min maxWidth finalWidth)
  let finalHeight := finalWidth * (img.height / img.width)
  ⟨glassesX, glassesY, finalWidth, finalHeight, faceAngle⟩

/-- Line 321: the smoothing factor used by drawGlassesOnFace. -/
noncomputable def smoothingFactor : ℝ := 0.6

/-- Lines 322-326: per-field first-order exponential blend of the
previous placement with the raw placement. -/
noncomputable def smoothPlacement (prev raw : Placement) : Placement :=
  ⟨prev.x * smoothingFactor + raw.x * (1 - smoothingFactor),
   prev.y * smoothingFactor + raw.y * (1 - smoothingFactor),
   prev.width * smoothingFactor + raw.width * (1 - smoothingFactor),
   prev.height * smoothingFactor + raw.height * (1 - smoothingFactor),
   prev.angle * smoothingFactor + raw.angle * (1 - smoothingFactor)⟩

/-- Lines 310-335: the per-frame placement update.  If the stored
placement has x = 0 (the bootstrap sentinel test) the stored value is
first overwritten with the raw placement, after which the smoothing
blend runs against the (possibly rewritten) stored value. -/
noncomputable def stepPlacement (prev raw : Placement) : Placement :=
  let prev := if prev.x = 0 then raw else prev
  smoothPlacement prev raw

/-- The draw instruction emitted at lines 338-355: translate to the
smoothed center, rotate by the smoothed angle, then drawImage centered
at the origin with the smoothed size, at globalAlpha 0.9. -/
structure DrawCmd where
  translateX : ℝ
  translateY : ℝ
  rotate : ℝ
  destX : ℝ
  destY : ℝ
  destW : ℝ
  destH : ℝ
  alpha : ℝ

/-- The drawImage call for a smoothed placement p (lines 341-355). -/
noncomputable def mkDraw (p : Placement) : DrawCmd :=
  ⟨p.x, p.y, p.angle, -(p.width / 2), -(p.height / 2), p.width, p.height, 0.9⟩

/-- drawGlassesOnFace (lines 246-375).  Returns .ok none on the clean
early returns (image missing or not decoded, line 247; any of the four
eye-corner landmarks undefined, lines 259-262), .error () when an eye-top
landmark is undefined (the eye-center computation at lines 267/271 then
dereferences undefined and throws a TypeError), and otherwise the new
stored placement together with the draw instruction. -/
noncomputable def drawGlassesOnFace (glassesImg : Option Img) (last : Placement)
    (landmarks : List (Option Point)) : Except Unit (Option (Placement × DrawCmd)) :=
  match glassesImg with
  | none => .ok none
  | some img =>
    if img.complete = false then .ok none
    else
      let leftEyeInner := getLandmark landmarks 133
      let rightEyeInner := getLandmark landmarks 362
      let leftEyeOuter := getLandmark landmarks 33
      let rightEyeOuter := getLandmark landmarks 263
      let leftEyeTop := getLandmark landmarks 159
      let rightEyeTop := getLandmark landmarks 386
      let noseTip := getLandmark landmarks 1
      let noseBridge := getLandmark landmarks 168
      match leftEyeInner, rightEyeInner, leftEyeOuter, rightEyeOuter with
      | some li, some ri, some lo, some ro =>
        match leftEyeTop, rightEyeTop with
        | some lt, some rt =>
          let raw := solvePlacement img (eyeCenter li lo lt) (eyeCenter ri ro rt)
          let sm := stepPlacement last raw
          .ok (some (sm, mkDraw sm))
        | _, _ => .error ()
      | _, _, _, _ => .ok none

/-- One face's slice of a detectFaces tick (lines 213-241): the length
guard at line 225, the call to drawGlassesOnFace, and the surrounding
try/catch which turns a thrown error into a logged no-op.  Returns the
stored placement after the tick and the draw instruction, if any. -/
noncomputable def processFrame (glassesImg : Option Img) (last : Placement)
    (landmarks : List (Option Point)) : Placement × Option DrawCmd :=
  if landmarks.length > 168 then
    match drawGlassesOnFace glassesImg last landmarks with
    | .ok (some (p, d)) => (p, some d)
    | .ok none => (last, none)
    | .error _ => (last, none)
  else (last, none)

/-- The stored placement after n ticks that all receive the same raw
placement, starting from the stored value s0 (repeated stepPlacement). -/
noncomputable def constStream (raw s0 : Placement) : ℕ → Placement
  | 0 => s0
  | n + 1 => stepPlacement (constStream raw s0 n) raw

/-- Blending a placement with itself returns it unchanged; this is why
the bootstrap frame emits the raw values exactly. -/
lemma smoothPlacement_self (p : Placement) : smoothPlacement p p = p := by
  cases p with
  | mk a b c d e =>
    simp only [smoothPlacement, smoothingFactor, Placement.mk.injEq]
    refine ⟨by ring, by ring, by ring, by ring, by ring⟩

/-- The width field of the raw placement, spelled out. -/
lemma solvePlacement_width (img : Img) (lc rc : Point) :
    (solvePlacement img lc rc).width =
      max (eyeDistance lc rc * 1.8)
        (min (eyeDistance lc rc * 2.5) (img.width * (eyeDistance lc rc / 80))) := rfl

/-- The angle field of the raw placement, spelled out. -/
lemma solvePlacement_angle (img : Img) (lc rc : Point) :
    (solvePlacement img lc rc).angle = max (-0.1) (min 0.1 (rawAngle lc rc)) := rfl

/-- The eye distance is a square root, hence nonnegative. -/
lemma eyeDistance_nonneg (lc rc : Point) : 0 ≤ eyeDistance lc rc :=
  Real.sqrt_nonneg _

/-- C10: the bootstrap test is exactly stored x = 0.  Whenever the stored
placement has x = 0 -- however that value arose -- the next valid frame
overwrites the stored placement with the raw values, discarding the
previous geometry as a smoothing anchor. -/
theorem sentinel_test_is_x_eq_zero (prev raw : Placement) (h : prev.x = 0) :
    stepPlacement prev raw = raw := by
  simp only [stepPlacement]
  rw [if_pos h]
  exact smoothPlacement_self raw

/-- Witness for C10 at a stored placement whose non-x fields carry
legitimate-looking geometry but whose x happens to be 0. -/
theorem sentinel_test_is_x_eq_zero_witness :
    stepPlacement ⟨0, 7, 8, 9, 1⟩ ⟨3, 4, 5, 6, 0⟩ = ⟨3, 4, 5, 6, 0⟩ :=
  sentinel_test_is_x_eq_zero _ _ rfl

/-- C6: for every eye-center pair the pre-smoothing width lies between
1.8 and 2.5 times the eye distance, whatever the asset's native size. -/
theorem width_within_clamp (img : Img) (lc rc : Point) :
    1.8 * eyeDistance lc rc ≤ (solvePlacement img lc rc).width ∧
    (solvePlacement img lc rc).width ≤ 2.5 * eyeDistance lc rc := by
  have hd : 0 ≤ eyeDistance lc rc := eyeDistance_nonneg lc rc
  rw [solvePlacement_width]
  constructor
  · rw [mul_comm]
    exact le_max_left _ _
  · refine max_le (by linarith) ?_
    calc min (eyeDistance lc rc * 2.5) (img.width * (eyeDistance lc rc / 80))
        ≤ eyeDistance lc rc * 2.5 := min_le_left _ _
      _ = 2.5 * eyeDistance lc rc := mul_comm _ _

/-- C7: the pre-smoothing angle is the raw atan2 angle hard-clamped to
[-0.1, 0.1]: below the range it is exactly -0.1, above it exactly 0.1,
and inside the range it is the raw angle unchanged. -/
theorem angle_hard_clamped (img : Img) (lc rc : Point) :
    (rawAngle lc rc < -0.1 → (solvePlacement img lc rc).angle = -0.1) ∧
    (0.1 < rawAngle lc rc → (solvePlacement img lc rc).angle = 0.1) ∧
    (-0.1 ≤ rawAngle lc rc → rawAngle lc rc ≤ 0.1 →
      (solvePlacement img lc rc).angle = rawAngle lc rc) := by
  rw [solvePlacement_angle]
  refine ⟨?_, ?_, ?_⟩
  · intro h
    rw [min_eq_right (le_of_lt (lt_trans h (by norm_num))), max_eq_left (le_of_lt h)]
  · intro h
    rw [min_eq_left (le_of_lt h), max_eq_right (by norm_num : (-0.1 : ℝ) ≤ 0.1)]
  · intro h1 h2
    rw [min_eq_right h2, max_eq_right h1]

/-- Witness for C7: a downward tilt of atan2 = -(pi/2) clamps to -0.1,
an upward tilt of pi/2 clamps to 0.1, and a level pair with raw angle 0
passes through unchanged. -/
theorem angle_hard_clamped_witness :
    (rawAngle ⟨100, 200⟩ ⟨100, 160⟩ < -0.1 ∧
      (solvePlacement ⟨200, 80, true⟩ ⟨100, 200⟩ ⟨100, 160⟩).angle = -0.1) ∧
    (0.1 < rawAngle ⟨100, 200⟩ ⟨100, 240⟩ ∧
      (solvePlacement ⟨200, 80, true⟩ ⟨100, 200⟩ ⟨100, 240⟩).angle = 0.1) ∧
    ((-0.1 ≤ rawAngle ⟨100, 200⟩ ⟨140, 200⟩ ∧ rawAngle ⟨100, 200⟩ ⟨140, 200⟩ ≤ 0.1) ∧
      (solvePlacement ⟨200, 80, true⟩ ⟨100, 200⟩ ⟨140, 200⟩).angle =
        rawAngle ⟨100, 200⟩ ⟨140, 200⟩) := by
  have hpi : (3 : ℝ) < Real.pi := Real.pi_gt_three
  have hdown : rawAngle ⟨100, 200⟩ ⟨100, 160⟩ = -(Real.pi / 2) := by
    have hz : (⟨(100 : ℝ) - 100, (160 : ℝ) - 200⟩ : ℂ) = (40 : ℝ) * (-Complex.I) := by
      refine Complex.ext ?_ ?_ <;> simp <;> norm_num
    simp only [rawAngle, atan2]
    rw [hz, Complex.arg_real_mul _ (by norm_num : (0 : ℝ) < 40), Complex.arg_neg_I]
  have hup : rawAngle ⟨100, 200⟩ ⟨100, 240⟩ = Real.pi / 2 := by
    have hz : (⟨(100 : ℝ) - 100, (240 : ℝ) - 200⟩ : ℂ) = (40 : ℝ) * Complex.I := by
      refine Complex.ext ?_ ?_ <;> simp <;> norm_num
    simp only [rawAngle, atan2]
    rw [hz, Complex.arg_real_mul _ (by norm_num : (0 : ℝ) < 40), Complex.arg_I]
  have hlevel : rawAngle ⟨100, 200⟩ ⟨140, 200⟩ = 0 := by
    have hz : (⟨(140 : ℝ) - 100, (200 : ℝ) - 200⟩ : ℂ) = ((40 : ℝ) : ℂ) := by
      refine Complex.ext ?_ ?_ <;> simp <;> norm_num
    simp only [rawAngle, atan2]
    rw [hz, Complex.arg_ofReal_of_nonneg (by norm_num : (0 : ℝ) ≤ 40)]
  have h1 : rawAngle (⟨100, 200⟩ : Point) ⟨100, 160⟩ < -0.1 := by
    rw [hdown]; linarith
  have h2 : (0.1 : ℝ) < rawAngle ⟨100, 200⟩ ⟨100, 240⟩ := by
    rw [hup]; linarith
  have h3a : (-0.1 : ℝ) ≤ rawAngle ⟨100, 200⟩ ⟨140, 200⟩ := by rw [hlevel]; norm_num
  have h3b : rawAngle (⟨100, 200⟩ : Point) ⟨140, 200⟩ ≤ 0.1 := by rw [hlevel]; norm_num
  exact ⟨⟨h1, (angle_hard_clamped ⟨200, 80, true⟩ ⟨100, 200⟩ ⟨100, 160⟩).1 h1⟩,
    ⟨h2, (angle_hard_clamped ⟨200, 80, true⟩ ⟨100, 200⟩ ⟨100, 240⟩).2.1 h2⟩,
    ⟨⟨h3a, h3b⟩, (angle_hard_clamped ⟨200, 80, true⟩ ⟨100, 200⟩ ⟨140, 200⟩).2.2 h3a h3b⟩⟩

/-- C5: aspect preservation.  The raw height is the clamped width times
the asset's native height-over-width aspect, and the smoothing step
preserves the invariant height = width times aspect whenever both its
inputs satisfy it (whether the frame bootstraps or blends). -/
theorem aspect_preserved :
    (∀ (img : Img) (lc rc : Point),
      (solvePlacement img lc rc).height =
        (solvePlacement img lc rc).width * (img.height / img.width)) ∧
    (∀ (r : ℝ) (prev raw : Placement),
      prev.height = prev.width * r → raw.height = raw.width * r →
      (stepPlacement prev raw).height = (stepPlacement prev raw).width * r) := by
  constructor
  · intro img lc rc
    rfl
  · intro r prev raw hp hr
    simp only [stepPlacement]
    by_cases h : prev.x = 0
    · rw [if_pos h]
      simp only [smoothPlacement]
      rw [hr]
      ring
    · rw [if_neg h]
      simp only [smoothPlacement]
      rw [hp, hr]
      ring

/-- Witness for C5's smoothing conjunct at aspect 2, with a previous
placement of size 3 by 6 and a raw placement of size 5 by 10. -/
theorem aspect_preserved_witness :
    ((⟨1, 2, 3, 6, 0⟩ : Placement).height = (⟨1, 2, 3, 6, 0⟩ : Placement).width * 2) ∧
    ((⟨1, 2, 5, 10, 0⟩ : Placement).height = (⟨1, 2, 5, 10, 0⟩ : Placement).width * 2) ∧
    (stepPlacement ⟨1, 2, 3, 6, 0⟩ ⟨1, 2, 5, 10, 0⟩).height =
      (stepPlacement ⟨1, 2, 3, 6, 0⟩ ⟨1, 2, 5, 10, 0⟩).width * 2 :=
  ⟨by norm_num, by norm_num,
    aspect_preserved.2 2 ⟨1, 2, 3, 6, 0⟩ ⟨1, 2, 5, 10, 0⟩ (by norm_num) (by norm_num)⟩

/-- C9: the worked concrete example.  Eye centers (100,200) and
(140,200) with a 200 by 80 asset give eye distance 40, raw angle 0,
clamped width 100, height 40 and center (120,195); on a bootstrap frame
the emitted placement is exactly those raw values. -/
theorem concrete_example_bootstrap :
    eyeDistance ⟨100, 200⟩ ⟨140, 200⟩ = 40 ∧
    rawAngle ⟨100, 200⟩ ⟨140, 200⟩ = 0 ∧
    solvePlacement ⟨200, 80, true⟩ ⟨100, 200⟩ ⟨140, 200⟩ = ⟨120, 195, 100, 40, 0⟩ ∧
    stepPlacement initialPlacement (solvePlacement ⟨200, 80, true⟩ ⟨100, 200⟩ ⟨140, 200⟩) =
      ⟨120, 195, 100, 40, 0⟩ := by
  have hd : eyeDistance (⟨100, 200⟩ : Point) ⟨140, 200⟩ = 40 := by
    simp only [eyeDistance]
    rw [show ((140 : ℝ) - 100) ^ 2 + ((200 : ℝ) - 200) ^ 2 = 40 ^ 2 by norm_num,
      Real.sqrt_sq (by norm_num : (0 : ℝ) ≤ 40)]
  have ha : rawAngle (⟨100, 200⟩ : Point) ⟨140, 200⟩ = 0 := by
    have hz : (⟨(140 : ℝ) - 100, (200 : ℝ) - 200⟩ : ℂ) = ((40 : ℝ) : ℂ) := by
      refine Complex.ext ?_ ?_ <;> simp <;> norm_num
    simp only [rawAngle, atan2]
    rw [hz, Complex.arg_ofReal_of_nonneg (by norm_num : (0 : ℝ) ≤ 40)]
  have hs : solvePlacement ⟨200, 80, true⟩ ⟨100, 200⟩ ⟨140, 200⟩ = ⟨120, 195, 100, 40, 0⟩ := by
    simp only [solvePlacement, hd, ha]
    simp only [Placement.mk.injEq]
    norm_num [max_def, min_def]
  refine ⟨hd, ha, hs, ?_⟩
  rw [hs]
  simp only [stepPlacement]
  have h0 : initialPlacement.x = 0 := rfl
  rw [if_pos h0]
  exact smoothPlacement_self _

/-- One blended field sits 0.6 times as far from the raw value as the
previous field did. -/
lemma blend_abs (p r : ℝ) :
    |p * smoothingFactor + r * (1 - smoothingFactor) - r| = 0.6 * |p - r| := by
  have h : p * smoothingFactor + r * (1 - smoothingFactor) - r = 0.6 * (p - r) := by
    simp only [smoothingFactor]
    ring
  rw [h, abs_mul, abs_of_pos (by norm_num : (0 : ℝ) < 0.6)]

/-- C4: on every non-bootstrap frame each field is blended as previous
times 0.6 plus raw times 0.4; under a constant raw stream with no
bootstrap along the way the deviation from the raw value contracts by
exactly 0.6 per tick in every field; and 0.6 to the N times any constant
tends to 0. -/
theorem smoothing_recurrence_and_convergence :
    (∀ prev raw : Placement, prev.x ≠ 0 →
      stepPlacement prev raw =
        ⟨prev.x * 0.6 + raw.x * 0.4, prev.y * 0.6 + raw.y * 0.4,
         prev.width * 0.6 + raw.width * 0.4, prev.height * 0.6 + raw.height * 0.4,
         prev.angle * 0.6 + raw.angle * 0.4⟩) ∧
    (∀ (raw s0 : Placement) (N : ℕ), (∀ k, k < N → (constStream raw s0 k).x ≠ 0) →
      |(constStream raw s0 N).x - raw.x| = 0.6 ^ N * |s0.x - raw.x| ∧
      |(constStream raw s0 N).y - raw.y| = 0.6 ^ N * |s0.y - raw.y| ∧
      |(constStream raw s0 N).width - raw.width| = 0.6 ^ N * |s0.width - raw.width| ∧
      |(constStream raw s0 N).height - raw.height| = 0.6 ^ N * |s0.height - raw.height| ∧
      |(constStream raw s0 N).angle - raw.angle| = 0.6 ^ N * |s0.angle - raw.angle|) ∧
    (∀ c : ℝ, Filter.Tendsto (fun N : ℕ => (0.6 : ℝ) ^ N * c) Filter.atTop (nhds 0)) := by
  refine ⟨?_, ?_, ?_⟩
  · intro prev raw h
    simp only [stepPlacement]
    rw [if_neg h]
    simp only [smoothPlacement, smoothingFactor, Placement.mk.injEq]
    refine ⟨by norm_num, by norm_num, by norm_num, by norm_num, by norm_num⟩
  · intro raw s0 N
    induction N with
    | zero =>
      intro _
      simp [constStream]
    | succ n ih =>
      intro h
      have hx : (constStream raw s0 n).x ≠ 0 := h n (Nat.lt_succ_self n)
      have ihh := ih (fun k hk => h k (Nat.lt_succ_of_lt hk))
      have hstep : constStream raw s0 (n + 1) =
          smoothPlacement (constStream raw s0 n) raw := by
        simp only [constStream, stepPlacement]
        rw [if_neg hx]
      rw [hstep]
      simp only [smoothPlacement]
      refine ⟨?_, ?_, ?_, ?_, ?_⟩ <;> rw [blend_abs]
      · rw [ihh.1]; ring
      · rw [ihh.2.1]; ring
      · rw [ihh.2.2.1]; ring
      · rw [ihh.2.2.2.1]; ring
      · rw [ihh.2.2.2.2]; ring
  · intro c
    have h := tendsto_pow_atTop_nhds_zero_of_lt_one
      (by norm_num : (0 : ℝ) ≤ 0.6) (by norm_num : (0.6 : ℝ) < 1)
    simpa using h.mul_const c

/-- Witness for C4: one non-bootstrap blend at a concrete pair, and the
one-tick deviation identity for the x field from a concrete start. -/
theorem smoothing_recurrence_and_convergence_witness :
    stepPlacement ⟨1, 2, 3, 4, 5⟩ ⟨6, 7, 8, 9, 10⟩ =
      ⟨1 * 0.6 + 6 * 0.4, 2 * 0.6 + 7 * 0.4, 3 * 0.6 + 8 * 0.4,
       4 * 0.6 + 9 * 0.4, 5 * 0.6 + 10 * 0.4⟩ ∧
    |(constStream ⟨6, 7, 8, 9, 10⟩ ⟨1, 2, 3, 4, 5⟩ 1).x - (6 : ℝ)| =
      0.6 ^ 1 * |(1 : ℝ) - 6| := by
  constructor
  · exact smoothing_recurrence_and_convergence.1 ⟨1, 2, 3, 4, 5⟩ ⟨6, 7, 8, 9, 10⟩
      (by show (1 : ℝ) ≠ 0; norm_num)
  · have h := (smoothing_recurrence_and_convergence.2.1 ⟨6, 7, 8, 9, 10⟩ ⟨1, 2, 3, 4, 5⟩ 1
      (by
        intro k hk
        have hk0 : k = 0 := Nat.lt_one_iff.mp hk
        subst hk0
        simp only [constStream]
        show (1 : ℝ) ≠ 0
        norm_num)).1
    exact h

/-- In-range lookup in a replicated list. -/
lemma get?_replicate_of_lt {α : Type} (a : α) :
    ∀ n i : ℕ, i < n → (List.replicate n a).get? i = some a
  | 0, i, h => absurd h (Nat.not_lt_zero i)
  | _ + 1, 0, _ => rfl
  | n + 1, i + 1, h => get?_replicate_of_lt a n i (Nat.lt_of_succ_lt_succ h)

/-- C1: any frame whose landmark array is long enough to enter
drawGlassesOnFace but leaves any of the six eye indices undefined
produces no draw instruction and leaves the stored placement unchanged
(for the four corner indices via the guard's early return, for the two
top indices via the thrown TypeError that detectFaces catches). -/
theorem missing_landmark_skips (g : Option Img) (last : Placement)
    (l : List (Option Point)) (hlen : l.length > 168)
    (h : getLandmark l 133 = none ∨ getLandmark l 362 = none ∨ getLandmark l 33 = none ∨
      getLandmark l 263 = none ∨ getLandmark l 159 = none ∨ getLandmark l 386 = none) :
    processFrame g last l = (last, none) := by
  simp only [processFrame]
  rw [if_pos hlen]
  rcases g with _ | img
  · rfl
  · rcases hci : img.complete with _ | _
    · simp [drawGlassesOnFace, hci]
    · cases e1 : getLandmark l 133 <;> cases e2 : getLandmark l 362 <;>
        cases e3 : getLandmark l 33 <;> cases e4 : getLandmark l 263 <;>
        cases e5 : getLandmark l 159 <;> cases e6 : getLandmark l 386 <;>
        simp_all [drawGlassesOnFace]

/-- Witness for C1: a landmark array of length 169 (so the length guard
passes) in which index 362 is out of range, hence undefined. -/
theorem missing_landmark_skips_witness :
    (List.replicate 169 (some (⟨0, 0⟩ : Point))).length > 168 ∧
    getLandmark (List.replicate 169 (some (⟨0, 0⟩ : Point))) 362 = none ∧
    processFrame (some ⟨200, 80, true⟩) ⟨5, 6, 7, 8, 0⟩
      (List.replicate 169 (some ⟨0, 0⟩)) = (⟨5, 6, 7, 8, 0⟩, none) := by
  have hlen : (List.replicate 169 (some (⟨0, 0⟩ : Point))).length > 168 := by
    rw [List.length_replicate]
    norm_num
  have h362 : getLandmark (List.replicate 169 (some (⟨0, 0⟩ : Point))) 362 = none := by
    simp only [getLandmark]
    rw [List.get?_eq_none.mpr (by rw [List.length_replicate]; norm_num)]
    rfl
  exact ⟨hlen, h362,
    missing_landmark_skips _ _ _ hlen (Or.inr (Or.inl h362))⟩

/-- C2: on a frame whose stored placement carries the sentinel x = 0 and
whose six eye landmarks are all present, the placement that is stored
and drawn is exactly the raw solver output, with no smoothing applied. -/
theorem bootstrap_emits_raw (img : Img) (last : Placement) (l : List (Option Point))
    (li lo lt ri ro rt : Point)
    (hx : last.x = 0) (hc : img.complete = true) (hlen : l.length > 168)
    (h133 : getLandmark l 133 = some li) (h362 : getLandmark l 362 = some ri)
    (h33 : getLandmark l 33 = some lo) (h263 : getLandmark l 263 = some ro)
    (h159 : getLandmark l 159 = some lt) (h386 : getLandmark l 386 = some rt) :
    processFrame (some img) last l =
      (solvePlacement img (eyeCenter li lo lt) (eyeCenter ri ro rt),
       some (mkDraw (solvePlacement img (eyeCenter li lo lt) (eyeCenter ri ro rt)))) := by
  have hstep : stepPlacement last (solvePlacement img (eyeCenter li lo lt) (eyeCenter ri ro rt)) =
      solvePlacement img (eyeCenter li lo lt) (eyeCenter ri ro rt) := by
    simp only [stepPlacement]
    rw [if_pos hx]
    exact smoothPlacement_self _
  simp only [processFrame]
  rw [if_pos hlen]
  simp [drawGlassesOnFace, hc, h133, h362, h33, h263, h159, h386, hstep]

/-- Witness for C2: a 387-entry landmark array with every point present,
processed against the initial sentinel placement. -/
theorem bootstrap_emits_raw_witness :
    processFrame (some ⟨200, 80, true⟩) initialPlacement
        (List.replicate 387 (some ⟨100, 200⟩)) =
      (solvePlacement ⟨200, 80, true⟩ (eyeCenter ⟨100, 200⟩ ⟨100, 200⟩ ⟨100, 200⟩)
          (eyeCenter ⟨100, 200⟩ ⟨100, 200⟩ ⟨100, 200⟩),
       some (mkDraw (solvePlacement ⟨200, 80, true⟩
          (eyeCenter ⟨100, 200⟩ ⟨100, 200⟩ ⟨100, 200⟩)
          (eyeCenter ⟨100, 200⟩ ⟨100, 200⟩ ⟨100, 200⟩)))) := by
  have hg : ∀ i : ℕ, i < 387 →
      getLandmark (List.replicate 387 (some (⟨100, 200⟩ : Point))) i = some ⟨100, 200⟩ := by
    intro i h
    simp only [getLandmark]
    rw [get?_replicate_of_lt _ 387 i h]
    rfl
  exact bootstrap_emits_raw ⟨200, 80, true⟩ initialPlacement
    (List.replicate 387 (some ⟨100, 200⟩)) ⟨100, 200⟩ ⟨100, 200⟩ ⟨100, 200⟩
    ⟨100, 200⟩ ⟨100, 200⟩ ⟨100, 200⟩ rfl rfl (by rw [List.length_replicate]; norm_num)
    (hg 133 (by norm_num)) (hg 362 (by norm_num)) (hg 33 (by norm_num))
    (hg 263 (by norm_num)) (hg 159 (by norm_num)) (hg 386 (by norm_num))

/-- C8: the frame result is insensitive to the nose landmarks.  Two
landmark arrays of equal length that agree everywhere except possibly at
indices 1 and 168 produce the same stored placement and the same draw
instruction. -/
theorem nose_landmarks_unused (g : Option Img) (last : Placement)
    (l1 l2 : List (Option Point)) (hlen : l1.length = l2.length)
    (hagree : ∀ i : ℕ, i ≠ 1 → i ≠ 168 → getLandmark l1 i = getLandmark l2 i) :
    processFrame g last l1 = processFrame g last l2 := by
  have e133 := hagree 133 (by norm_num) (by norm_num)
  have e362 := hagree 362 (by norm_num) (by norm_num)
  have e33 := hagree 33 (by norm_num) (by norm_num)
  have e263 := hagree 263 (by norm_num) (by norm_num)
  have e159 := hagree 159 (by norm_num) (by norm_num)
  have e386 := hagree 386 (by norm_num) (by norm_num)
  have hdraw : drawGlassesOnFace g last l1 = drawGlassesOnFace g last l2 := by
    rcases g with _ | img
    · rfl
    · simp only [drawGlassesOnFace, e133, e362, e33, e263, e159, e386]
  simp only [processFrame, hlen, hdraw]

/-- Witness for C8: a full landmark array versus the same array with the
nose-tip entry at index 1 removed. -/
theorem nose_landmarks_unused_witness :
    processFrame (some ⟨200, 80, true⟩) ⟨5, 6, 7, 8, 0⟩
        (List.replicate 387 (some ⟨100, 200⟩)) =
      processFrame (some ⟨200, 80, true⟩) ⟨5, 6, 7, 8, 0⟩
        ((List.replicate 387 (some ⟨100, 200⟩)).set 1 none) := by
  refine nose_landmarks_unused _ _ _ _ (by rw [List.length_set]) ?_
  intro i h1 _
  simp only [getLandmark]
  rw [List.get?_set_ne _ _ (fun he => h1 he.symm)]

/-- A glasses-option element's dataset, read by selectGlasses
(element.dataset.style, element.dataset.image). -/
structure Element where
  style : String
  image : String

/-- The VirtualGlassesTryOn fields that the lifecycle methods touch. -/
structure AppState where
  lastGlassesPosition : Placement
  animationId : Option ℕ
  currentGlassesStyle : String
  currentGlassesImage : String
  glassesImg : Option Img
  webcamActive : Bool
  modelLoaded : Bool

/-- stopFaceDetection (lines 192-197): cancels the scheduled animation
frame, if any, and nulls animationId.  No other field is written. -/
def stopFaceDetection (s : AppState) : AppState :=
  if s.animationId.isSome then { s with animationId := none } else s

/-- startFaceDetection (lines 182-187): returns immediately unless the
camera is active and the model is loaded; otherwise it re-enters
detectFaces, whose scheduling stores a fresh animation id (line 239).
The per-face landmark work of the loop itself is modelled separately by
processFrame; startFaceDetection writes no placement field. -/
def startFaceDetection (fid : ℕ) (s : AppState) : AppState :=
  if s.webcamActive && s.modelLoaded then { s with animationId := some fid } else s

/-- selectGlasses (lines 380-393): takes the style and image from the
clicked element's dataset and starts loading the new overlay image
(loadGlassesImage, lines 114-124), replacing this.glassesImg with a
fresh Image whose size is unknown and whose complete flag is false
until the asynchronous load fires.  lastGlassesPosition is not
touched. -/
def selectGlasses (s : AppState) (el : Element) : AppState :=
  { s with currentGlassesStyle := el.style,
           currentGlassesImage := el.image,
           glassesImg := some ⟨0, 0, false⟩ }

/-- Counterexample to C3 as stated: from a state holding the smoothed
placement (5,6,7,8,0), an explicit stop of the detection loop followed
by a start leaves lastGlassesPosition exactly as it was; the sentinel
placement is not restored. -/
theorem stop_start_do_not_restore_sentinel :
    (startFaceDetection 1 (stopFaceDetection
        { lastGlassesPosition := ⟨5, 6, 7, 8, 0⟩, animationId := some 0,
          currentGlassesStyle := "a", currentGlassesImage := "b",
          glassesImg := some ⟨200, 80, true⟩, webcamActive := true,
          modelLoaded := true })).lastGlassesPosition = ⟨5, 6, 7, 8, 0⟩ ∧
    ((⟨5, 6, 7, 8, 0⟩ : Placement) ≠ initialPlacement) := by
  constructor
  · rfl
  · intro hcontra
    have h5 : (5 : ℝ) = 0 := congrArg Placement.x hcontra
    norm_num at h5

/-- C3 amended: the smoothing placement state survives every lifecycle
operation.  selectGlasses leaves lastGlassesPosition unchanged, and so
do stopFaceDetection, startFaceDetection, and a stop followed by a
start; only construction of the object installs the sentinel. -/
theorem placement_state_never_reset (s : AppState) (el : Element) (fid : ℕ) :
    (selectGlasses s el).lastGlassesPosition = s.lastGlassesPosition ∧
    (stopFaceDetection s).lastGlassesPosition = s.lastGlassesPosition ∧
    (startFaceDetection fid s).lastGlassesPosition = s.lastGlassesPosition ∧
    (startFaceDetection fid (stopFaceDetection s)).lastGlassesPosition =
      s.lastGlassesPosition := by
  have hstop : (stopFaceDetection s).lastGlassesPosition = s.lastGlassesPosition := by
    simp only [stopFaceDetection]
    split <;> rfl
  have hstart : ∀ t : AppState,
      (startFaceDetection fid t).lastGlassesPosition = t.lastGlassesPosition := by
    intro t
    simp only [startFaceDetection]
    split <;> rfl
  exact ⟨rfl, hstop, hstart s, (hstart (stopFaceDetection s)).trans hstop⟩

end VirtualGlasses
